import Mathlib

/-!
Verification of the `golem` page-object parser/serializer
(`golem/gui/page_object.py`) and the WebDriver convenience mixin
(`golem/webdriver/extended_webelement.py`).

Python strings are embedded as `List Char`; the Python string methods
used by the source (split on a one-character separator, strip with no
argument, replace of a one-character pattern by the empty string) are
given faithful executable models below.
-/

namespace Golem

/-- The ASCII whitespace characters removed by Python `str.strip()`. -/
def isPySpace (c : Char) : Bool :=
  c = ' ' || c = '\t' || c = '\n' || c = '\r' || c = '\x0b' || c = '\x0c'

/-- Python `str.lstrip()`: drop leading whitespace. -/
def lstrip (s : List Char) : List Char :=
  s.dropWhile isPySpace

/-- Python `str.rstrip()`: drop trailing whitespace. -/
def rstrip (s : List Char) : List Char :=
  (s.reverse.dropWhile isPySpace).reverse

/-- Python `str.strip()`: drop whitespace at both ends. -/
def pyStrip (s : List Char) : List Char :=
  lstrip (rstrip s)

/-- Python `str.split(sep)` for a one-character separator: split at every
occurrence of `sep`, keeping empty chunks; the result is never empty. -/
def pySplit (sep : Char) : List Char → List (List Char)
  | [] => [[]]
  | c :: cs =>
    if c = sep then [] :: pySplit sep cs
    else
      match pySplit sep cs with
      | [] => [[c]]
      | t :: ts => (c :: t) :: ts

/-- Python replace of the one-character pattern `c` by the empty string:
delete every occurrence of `c`. -/
def pyDelete (c : Char) (s : List Char) : List Char :=
  s.filter (fun d => d ≠ c)

/-- The single-quote character (the quote used by the page-object DSL). -/
def quoteChar : Char := '\x27'

/-- An element record as passed to `save_page_object`
(keys `name`, `selector`, `value`, `display_name`). -/
structure ElementInput where
  name : List Char
  selector : List Char
  value : List Char
  display_name : List Char
deriving DecidableEq, Repr

/-- An element record as produced by `get_web_elements`
(keys `element_name`, ..., `element_full_name`). -/
structure ParsedElement where
  element_name : List Char
  element_selector : List Char
  element_value : List Char
  element_display_name : List Char
  element_full_name : List Char
deriving DecidableEq, Repr

/-- The body of the `get_web_elements` loop for one line that contains the
equals sign.  The element name is chunk 0 of the equals-split, stripped; the
description is chunk 1 of the equals-split, stripped; the description is then
comma-split into chunks 0, 1, 2, each stripped, with every quote character
deleted from all three, every opening parenthesis deleted from chunk 0, and
every closing parenthesis deleted from chunk 2.

`none` models the IndexError raised when the comma-split yields fewer than
three chunks (the equals-split yields at least two chunks whenever the line
contains an equals sign, so indexing it at 1 cannot fail there). -/
def parseLine (po_name line : List Char) : Option ParsedElement :=
  match pySplit '=' line with
  | lhs :: rhs :: _ =>
    let element_name := pyStrip lhs
    let element_description := pyStrip rhs
    match pySplit ',' element_description with
    | f0 :: f1 :: f2 :: _ =>
      some {
        element_name := element_name
        element_selector := pyDelete '(' (pyDelete quoteChar (pyStrip f0))
        element_value := pyDelete quoteChar (pyStrip f1)
        element_display_name := pyDelete ')' (pyDelete quoteChar (pyStrip f2))
        element_full_name := po_name ++ '.' :: element_name }
    | _ => none
  | _ => none

/-- `get_web_elements(content, po_name)`: iterate over the lines, appending a
record for every line containing `=`; `none` models the `IndexError` escaping
the whole call when any such line is malformed. Lines without `=` are skipped. -/
def get_web_elements (content : List (List Char)) (po_name : List Char) :
    Option (List ParsedElement) :=
  match content with
  | [] => some []
  | line :: rest =>
    if '=' ∈ line then
      match parseLine po_name line with
      | some el => (get_web_elements rest po_name).map (fun es => el :: es)
      | none => none
    else get_web_elements rest po_name

/-- The line `save_page_object` writes for one element: the name, a spaced
equals sign, and the quoted selector, value and display name separated by
comma-space inside parentheses (without the trailing newline). -/
def formatLine (e : ElementInput) : List Char :=
  e.name ++ [' ', '=', ' ', '(', quoteChar] ++ e.selector
    ++ [quoteChar, ',', ' ', quoteChar] ++ e.value
    ++ [quoteChar, ',', ' ', quoteChar] ++ e.display_name
    ++ [quoteChar, ')']

/-- `save_page_object`: the full text written to the page file, one formatted
line per element, each terminated by a newline, in the order given. -/
def save_page_object (elements : List ElementInput) : List Char :=
  (elements.map (fun e => formatLine e ++ ['\n'])).flatten

/-- `f.readlines()` as used by `get_page_object_elements`, composed with the
newline handling already performed by `strip()` inside the parser: the file
text split at newlines. -/
def readLines (text : List Char) : List (List Char) :=
  pySplit '\n' text

/-- The parsed record that round-tripping an input element should produce. -/
def toParsed (po_name : List Char) (e : ElementInput) : ParsedElement :=
  { element_name := e.name
    element_selector := e.selector
    element_value := e.value
    element_display_name := e.display_name
    element_full_name := po_name ++ '.' :: e.name }

/-- `is_page_object`, with the surrounding set of known page objects
(fetched by `gui_utils.get_page_objects__DEPRECADO`, outside this slice)
abstracted to the list of their names.  The source returns False when the
dot-split of the parameter has at most one segment; otherwise it drops the
last segment and returns True exactly when some known page-object name
equals the last element of the remaining chain. -/
def is_page_object (parameter : List Char) (page_object_names : List (List Char)) :
    Bool :=
  let segments := pySplit '.' parameter
  if segments.length ≤ 1 then
    false
  else
    let page_object_chain := segments.dropLast
    page_object_names.any (fun po => po = page_object_chain.getLast?.getD [])

/-- The condition under which serializing and re-parsing an element is
lossless.  The first four conjunct groups are the precondition the spec
already states (no commas, no quotes); the rest are the further
restrictions the code forces: no equals sign or newline in any field, no
opening parenthesis in the selector, no closing parenthesis in the display
name, and no surrounding whitespace in the name. -/
def RoundTripSafe (e : ElementInput) : Prop :=
  (',' ∉ e.name ∧ ',' ∉ e.selector ∧ ',' ∉ e.value ∧ ',' ∉ e.display_name) ∧
  (quoteChar ∉ e.name ∧ quoteChar ∉ e.selector ∧ quoteChar ∉ e.value ∧
    quoteChar ∉ e.display_name) ∧
  ('=' ∉ e.name ∧ '=' ∉ e.selector ∧ '=' ∉ e.value ∧ '=' ∉ e.display_name) ∧
  ('\n' ∉ e.name ∧ '\n' ∉ e.selector ∧ '\n' ∉ e.value ∧ '\n' ∉ e.display_name) ∧
  '(' ∉ e.selector ∧ ')' ∉ e.display_name ∧ pyStrip e.name = e.name

instance (e : ElementInput) : Decidable (RoundTripSafe e) := by
  unfold RoundTripSafe; infer_instance

/-- Outcome of the parser on a single line: skipped, a parsed record, or a
raised IndexError. -/
inductive LineResult where
  | ignored : LineResult
  | record : ParsedElement → LineResult
  | error : LineResult
deriving DecidableEq, Repr

/-- What `get_web_elements` does with one line of input, as written in the
source: lines without an equals sign are skipped, the rest are parsed by
`parseLine`, whose IndexError aborts the call. -/
def codeParseLine (po_name line : List Char) : LineResult :=
  if '=' ∈ line then
    match parseLine po_name line with
    | some el => LineResult.record el
    | none => LineResult.error
  else LineResult.ignored

/-- Quote or parenthesis character (the characters the spec says are
stripped from the surroundings of each token). -/
def isQP (c : Char) : Bool :=
  c = quoteChar || c = '(' || c = ')'

/-- Strip characters satisfying `p` from both ends of a list. -/
def stripEnds (p : Char → Bool) (s : List Char) : List Char :=
  ((s.dropWhile p).reverse.dropWhile p).reverse

/-- The parse rule exactly as the spec words it: a line is a declaration iff
it contains an equals sign; the element name is the trimmed text before the
first equals sign; the right-hand side (everything after the first equals
sign) splits on commas into exactly three tokens, each stripped of its
surrounding quote and parenthesis characters. -/
def specParseLine (po_name line : List Char) : LineResult :=
  if '=' ∈ line then
    let element_name := pyStrip (line.takeWhile (fun c => c ≠ '='))
    let rhs := (line.dropWhile (fun c => c ≠ '=')).tail
    match pySplit ',' (pyStrip rhs) with
    | [f0, f1, f2] =>
      LineResult.record {
        element_name := element_name
        element_selector := stripEnds isQP (pyStrip f0)
        element_value := stripEnds isQP (pyStrip f1)
        element_display_name := stripEnds isQP (pyStrip f2)
        element_full_name := po_name ++ '.' :: element_name }
    | _ => LineResult.error
  else LineResult.ignored

/-- The parse rule as the code forces it to be amended: the right-hand side
is only the segment between the first and the second equals sign; the first
three comma-separated tokens are used and any further tokens are ignored;
each used token is trimmed and then every quote character is deleted from
it (not only surrounding ones), with every opening parenthesis also deleted
from the first token and every closing parenthesis from the third. -/
def specParseLineAmended (po_name line : List Char) : LineResult :=
  if '=' ∈ line then
    let element_name := pyStrip (line.takeWhile (fun c => c ≠ '='))
    let after_first := (line.dropWhile (fun c => c ≠ '=')).tail
    let rhs := after_first.takeWhile (fun c => c ≠ '=')
    match pySplit ',' (pyStrip rhs) with
    | f0 :: f1 :: f2 :: _ =>
      LineResult.record {
        element_name := element_name
        element_selector := pyDelete '(' (pyDelete quoteChar (pyStrip f0))
        element_value := pyDelete quoteChar (pyStrip f1)
        element_display_name := pyDelete ')' (pyDelete quoteChar (pyStrip f2))
        element_full_name := po_name ++ '.' :: element_name }
    | _ => LineResult.error
  else LineResult.ignored

/-- `content` is an arbitrary interleaving of the two lists `xs` and `ys`,
keeping the relative order of each. -/
inductive Interleave : List (List Char) → List (List Char) → List (List Char) → Prop
  | nil : Interleave [] [] []
  | left {l xs ys} (x : List Char) :
      Interleave l xs ys → Interleave (x :: l) (x :: xs) ys
  | right {l xs ys} (y : List Char) :
      Interleave l xs ys → Interleave (y :: l) xs (y :: ys)

/-!
Embedding of the WebDriver convenience mixin
(`golem/webdriver/extended_webelement.py`).  A web element is embedded as
the snapshot of the state the mixin methods consult: its golem name, its
tag name, its attributes, and whether it is currently selected.  Methods
that would act on the browser instead return the list of mutating actions
they perform; methods that raise return an error carrying the exact
message built by the source. -/

/-- A Python numeric-or-other value, as discriminated by the isinstance
checks in `send_keys_with_delay` (floats are embedded as rationals). -/
inductive PyNum where
  | int : Int → PyNum
  | float : ℚ → PyNum
  | notNum : PyNum
deriving DecidableEq

/-- True when the value is a Python int or float. -/
def PyNum.isNumeric : PyNum → Bool
  | PyNum.notNum => false
  | _ => true

/-- True when the numeric value is strictly negative. -/
def PyNum.isNegative : PyNum → Bool
  | PyNum.int n => n < 0
  | PyNum.float q => q < 0
  | PyNum.notNum => false

/-- A browser-mutating action performed by a mixin method. -/
inductive ElementAction where
  | click : ElementAction
  | sendKeys : String → ElementAction
  | sleepFor : PyNum → ElementAction
deriving DecidableEq

/-- The element state consulted by the mixin methods. -/
structure WebElementState where
  name : String
  tag_name : String
  attributes : List (String × String)
  selected : Bool
deriving DecidableEq

/-- Selenium get_attribute: the attribute value when present, None
otherwise. -/
def get_attribute (e : WebElementState) (attr_name : String) : Option String :=
  (e.attributes.find? (fun p => p.1 == attr_name)).map Prod.snd

/-- Python membership of a possibly-None string in a list of strings
(None is in no list). -/
def pyMemOpt (o : Option String) (l : List String) : Bool :=
  match o with
  | some s => l.contains s
  | none => false

/-- `ExtendedWebElement.check`: when the element is an input of type
checkbox or radio, click it only if it is not already selected; otherwise
raise a ValueError. -/
def check (e : WebElementState) : Except String (List ElementAction) :=
  let checkbox_or_radio :=
    e.tag_name == "input" &&
      pyMemOpt (get_attribute e "type") ["checkbox", "radio"]
  if checkbox_or_radio then
    if !e.selected then Except.ok [ElementAction.click]
    else Except.ok []
  else
    Except.error ("Element " ++ e.name ++ " is not checkbox or radiobutton")

/-- `ExtendedWebElement.uncheck`: when the element is an input of type
checkbox, click it only if it is currently selected; otherwise raise a
ValueError. -/
def uncheck (e : WebElementState) : Except String (List ElementAction) :=
  let is_checkbox :=
    e.tag_name == "input" && (get_attribute e "type" == some "checkbox")
  if is_checkbox then
    if e.selected then Except.ok [ElementAction.click]
    else Except.ok []
  else
    Except.error ("Element " ++ e.name ++ " is not checkbox")

/-- The message `press_key` raises for an unknown key: the invalid key,
then the defined key names that do not start with an underscore, joined by
commas. -/
def invalidKeyMessage (keys_attrs : List (String × String)) (key : String) :
    String :=
  "Key " ++ key ++ " is invalid\nvalid keys are:\n" ++
    String.intercalate ","
      ((keys_attrs.map Prod.fst).filter (fun n => !(n.startsWith "_")))

/-- `ExtendedWebElement.press_key`, with the attribute table of the
external selenium Keys class abstracted to a name-to-keycode list: send the
key when it is a defined attribute, raise a ValueError naming the key and
listing the valid keys otherwise. -/
def press_key (keys_attrs : List (String × String)) (key : String) :
    Except String (List ElementAction) :=
  match keys_attrs.find? (fun p => p.1 == key) with
  | some p => Except.ok [ElementAction.sendKeys p.2]
  | none => Except.error (invalidKeyMessage keys_attrs key)

/-- The keystroke-then-sleep action sequence `send_keys_with_delay`
performs for a value typed one character at a time. -/
def typeWithDelayActions (value : String) (delay : PyNum) : List ElementAction :=
  (value.toList.map (fun c =>
    [ElementAction.sendKeys (String.singleton c), ElementAction.sleepFor delay])).flatten

/-- `ExtendedWebElement.send_keys_with_delay`: raise a ValueError when the
delay is not an int or float, raise a ValueError when it is negative, and
otherwise send the characters one by one, sleeping after each. -/
def send_keys_with_delay (value : String) (delay : PyNum) :
    Except String (List ElementAction) :=
  if !delay.isNumeric then Except.error "delay must be int or float"
  else if delay.isNegative then Except.error "delay must be a positive number"
  else Except.ok (typeWithDelayActions value delay)

/-- The external WebDriverWait together with an expected condition,
abstracted over discrete polling steps: the condition is a predicate on the
poll index, the timeout bounds the number of polls, and the result is
success as soon as some poll within the timeout satisfies the condition
and the given timeout message otherwise. -/
def webDriverWaitUntil (timeout : Nat) (cond : Nat → Bool) (message : String) :
    Except String Unit :=
  if (List.range (timeout + 1)).any cond then Except.ok ()
  else Except.error message

/-- The external WebDriverWait in its until_not form: success as soon as
some poll within the timeout fails the condition, the timeout message when
the condition holds at every poll. -/
def webDriverWaitUntilNot (timeout : Nat) (cond : Nat → Bool) (message : String) :
    Except String Unit :=
  if (List.range (timeout + 1)).any (fun k => !(cond k)) then Except.ok ()
  else Except.error message

/-- `wait_displayed`: wait for the visibility condition, then return the
element itself. -/
def wait_displayed (e : WebElementState) (displayed : Nat → Bool)
    (timeout : Nat := 30) : Except String WebElementState :=
  (webDriverWaitUntil timeout displayed
    ("Timeout waiting for element " ++ e.name ++ " to be displayed")).map
    (fun _ => e)

/-- `wait_enabled`: wait for the enabled condition, then return the
element itself. -/
def wait_enabled (e : WebElementState) (enabled : Nat → Bool)
    (timeout : Nat := 30) : Except String WebElementState :=
  (webDriverWaitUntil timeout enabled
    ("Timeout waiting for element " ++ e.name ++ " to be enabled")).map
    (fun _ => e)

/-- `wait_has_attribute`: wait for the has-attribute condition, then
return the element itself. -/
def wait_has_attribute (e : WebElementState) (attr_name : String)
    (hasAttr : Nat → Bool) (timeout : Nat := 30) :
    Except String WebElementState :=
  (webDriverWaitUntil timeout hasAttr
    ("Timeout waiting for element " ++ e.name ++ " to have attribute " ++
      attr_name)).map (fun _ => e)

/-- `wait_has_not_attribute`: wait for the has-attribute condition to
fail, then return the element itself. -/
def wait_has_not_attribute (e : WebElementState) (attr_name : String)
    (hasAttr : Nat → Bool) (timeout : Nat := 30) :
    Except String WebElementState :=
  (webDriverWaitUntilNot timeout hasAttr
    ("Timeout waiting for element " ++ e.name ++ " to not have attribute " ++
      attr_name)).map (fun _ => e)

/-- `wait_not_displayed`: wait for the visibility condition to fail, then
return the element itself. -/
def wait_not_displayed (e : WebElementState) (displayed : Nat → Bool)
    (timeout : Nat := 30) : Except String WebElementState :=
  (webDriverWaitUntilNot timeout displayed
    ("Timeout waiting for element " ++ e.name ++ " to be not displayed")).map
    (fun _ => e)

/-- `wait_not_enabled`: wait for the enabled condition to fail, then
return the element itself. -/
def wait_not_enabled (e : WebElementState) (enabled : Nat → Bool)
    (timeout : Nat := 30) : Except String WebElementState :=
  (webDriverWaitUntilNot timeout enabled
    ("Timeout waiting for element " ++ e.name ++ " to be not enabled")).map
    (fun _ => e)

/-- `wait_text`: wait for the element text to equal the given text, then
return the element itself. -/
def wait_text (e : WebElementState) (text : String) (textIs : Nat → Bool)
    (timeout : Nat := 30) : Except String WebElementState :=
  (webDriverWaitUntil timeout textIs
    ("Timeout waiting for element " ++ e.name ++ " text to be \x27" ++
      text ++ "\x27")).map (fun _ => e)

/-- `wait_text_contains`: wait for the element text to contain the given
text, then return the element itself. -/
def wait_text_contains (e : WebElementState) (text : String)
    (textContains : Nat → Bool) (timeout : Nat := 30) :
    Except String WebElementState :=
  (webDriverWaitUntil timeout textContains
    ("Timeout waiting for element " ++ e.name ++ " text to contain \x27" ++
      text ++ "\x27")).map (fun _ => e)

/-- `wait_text_is_not`: wait for the element text to differ from the given
text, then return the element itself. -/
def wait_text_is_not (e : WebElementState) (text : String)
    (textIs : Nat → Bool) (timeout : Nat := 30) :
    Except String WebElementState :=
  (webDriverWaitUntilNot timeout textIs
    ("Timeout waiting for element " ++ e.name ++ " text not to be \x27" ++
      text ++ "\x27")).map (fun _ => e)

/-- `wait_text_not_contains`: wait for the element text to not contain the
given text, then return the element itself. -/
def wait_text_not_contains (e : WebElementState) (text : String)
    (textContains : Nat → Bool) (timeout : Nat := 30) :
    Except String WebElementState :=
  (webDriverWaitUntilNot timeout textContains
    ("Timeout waiting for element " ++ e.name ++ " text to not contain \x27" ++
      text ++ "\x27")).map (fun _ => e)

/-!
Embedding of the file-system effects of `new_page_object`.  Paths are
embedded as lists of components (what os.path.join assembles); the file
system records which directories exist and the content of each file. -/

/-- A flat model of the file system: existing directories and files with
their contents. -/
structure FileSystem where
  dirs : List (List String)
  files : List (List String × String)
deriving DecidableEq

/-- os.path.exists: true when the path is an existing directory or an
existing file. -/
def path_exists (fs : FileSystem) (p : List String) : Bool :=
  fs.dirs.contains p || fs.files.any (fun q => q.1 == p)

/-- os.makedirs: create the directory and every missing ancestor. -/
def os_makedirs (fs : FileSystem) (p : List String) : FileSystem :=
  { fs with dirs := (List.range p.length).map (fun k => p.take (k + 1)) ++ fs.dirs }

/-- Opening a file in write mode and writing `content`: the file is
created or truncated, and holds exactly `content` afterwards. -/
def write_file (fs : FileSystem) (p : List String) (content : String) :
    FileSystem :=
  { fs with files := (p, content) :: fs.files.filter (fun q => !(q.1 == p)) }

/-- Reading a file: its content when it exists. -/
def read_file (fs : FileSystem) (p : List String) : Option String :=
  (fs.files.find? (fun q => q.1 == p)).map Prod.snd

/-- The directory into which `new_page_object` writes. -/
def pageObjectDir (root_path project : String) (parents : List String) :
    List String :=
  root_path :: "projects" :: project :: "pages" :: parents

/-- `new_page_object`: create the pages directory (and its ancestors) when
missing, then open the page-object file in write mode and write the empty
string. -/
def new_page_object (fs : FileSystem) (root_path project : String)
    (parents : List String) (page_object_name : String) : FileSystem :=
  let page_object_path := pageObjectDir root_path project parents
  let fs1 :=
    if path_exists fs page_object_path then fs
    else os_makedirs fs page_object_path
  write_file fs1 (page_object_path ++ [page_object_name ++ ".py"]) ""

/-! ### Lemmas about the embedded Python string operations -/

theorem pySplit_nil (c : Char) : pySplit c [] = [[]] := rfl

theorem pySplit_cons_self (c : Char) (l : List Char) :
    pySplit c (c :: l) = [] :: pySplit c l := by
  simp [pySplit]

theorem pySplit_ne_nil (c : Char) (l : List Char) : pySplit c l ≠ [] := by
  induction l with
  | nil => simp [pySplit]
  | cons d t ih =>
    by_cases h : d = c
    · simp [pySplit, h]
    · simp only [pySplit, if_neg h]
      cases ht : pySplit c t with
      | nil => exact absurd ht ih
      | cons u us => simp

theorem pySplit_cons_ne {d c : Char} (h : d ≠ c) (l : List Char) :
    pySplit c (d :: l) =
      (d :: (pySplit c l).headD []) :: (pySplit c l).tail := by
  simp only [pySplit, if_neg h]
  cases ht : pySplit c l with
  | nil => exact absurd ht (pySplit_ne_nil c l)
  | cons u us => simp

theorem pySplit_append_not_mem {c : Char} {l : List Char} (h : c ∉ l)
    (r : List Char) :
    pySplit c (l ++ r) =
      (l ++ (pySplit c r).headD []) :: (pySplit c r).tail := by
  induction l with
  | nil =>
    cases ht : pySplit c r with
    | nil => exact absurd ht (pySplit_ne_nil c r)
    | cons u us => simp [ht]
  | cons d t ih =>
    have hd : d ≠ c := fun hdc => h (hdc ▸ List.mem_cons_self d t)
    have ht : c ∉ t := fun htc => h (List.mem_cons_of_mem d htc)
    rw [List.cons_append, pySplit_cons_ne hd, ih ht]
    simp

theorem pySplit_not_mem {c : Char} {l : List Char} (h : c ∉ l) :
    pySplit c l = [l] := by
  have := pySplit_append_not_mem h []
  simpa [pySplit] using this

theorem pySplit_append_cons {c : Char} {l : List Char} (h : c ∉ l)
    (r : List Char) :
    pySplit c (l ++ c :: r) = l :: pySplit c r := by
  rw [pySplit_append_not_mem h, pySplit_cons_self]
  simp

theorem pySplit_of_mem {c : Char} {l : List Char} (h : c ∈ l) :
    pySplit c l =
      l.takeWhile (fun d => d ≠ c) ::
        pySplit c ((l.dropWhile (fun d => d ≠ c)).tail) := by
  induction l with
  | nil => cases h
  | cons d t ih =>
    by_cases hd : d = c
    · subst hd
      rw [pySplit_cons_self]
      simp [List.takeWhile, List.dropWhile]
    · have ht : c ∈ t := by
        rcases List.mem_cons.mp h with h1 | h1
        · exact absurd h1.symm hd
        · exact h1
      rw [pySplit_cons_ne hd, ih ht]
      simp [List.takeWhile, List.dropWhile, hd]

theorem pySplit_headD {c : Char} (l : List Char) :
    (pySplit c l).headD [] = l.takeWhile (fun d => d ≠ c) := by
  by_cases h : c ∈ l
  · rw [pySplit_of_mem h]; rfl
  · rw [pySplit_not_mem h]
    simp only [List.headD_cons]
    symm
    rw [List.takeWhile_eq_self_iff]
    intro a ha
    simp only [ne_eq, decide_eq_true_eq, Bool.not_eq_false', decide_eq_false_iff_not]
    exact fun hac => h (hac ▸ ha)

theorem lstrip_cons (c : Char) (l : List Char) :
    lstrip (c :: l) = if isPySpace c then lstrip l else c :: l := by
  simp [lstrip, List.dropWhile_cons]

theorem rstrip_append_nonspace {c : Char} (h : isPySpace c = false)
    (l : List Char) : rstrip (l ++ [c]) = l ++ [c] := by
  simp [rstrip, List.dropWhile_cons, h]

theorem rstrip_append_space {c : Char} (h : isPySpace c = true)
    (l : List Char) : rstrip (l ++ [c]) = rstrip l := by
  simp [rstrip, List.dropWhile_cons, h]

theorem pyStrip_append_space (l : List Char) :
    pyStrip (l ++ [' ']) = pyStrip l := by
  unfold pyStrip
  rw [rstrip_append_space (by decide)]

theorem pyDelete_not_mem {c : Char} {l : List Char} (h : c ∉ l) :
    pyDelete c l = l := by
  unfold pyDelete
  rw [List.filter_eq_self]
  intro a ha
  simp only [ne_eq, decide_eq_true_eq]
  exact fun hac => h (hac ▸ ha)

theorem pyDelete_cons (c d : Char) (l : List Char) :
    pyDelete c (d :: l) =
      if d = c then pyDelete c l else d :: pyDelete c l := by
  by_cases h : d = c <;> simp [pyDelete, h]

theorem pyDelete_append (c : Char) (l r : List Char) :
    pyDelete c (l ++ r) = pyDelete c l ++ pyDelete c r := by
  simp [pyDelete, List.filter_append]

theorem pyDelete_nil (c : Char) : pyDelete c [] = [] := rfl

theorem pyDelete_cons_self (c : Char) (l : List Char) :
    pyDelete c (c :: l) = pyDelete c l := by
  rw [pyDelete_cons, if_pos rfl]

theorem pyDelete_cons_ne {d c : Char} (h : d ≠ c) (l : List Char) :
    pyDelete c (d :: l) = d :: pyDelete c l := by
  rw [pyDelete_cons, if_neg h]

/-! ### Round-trip of one serialized token -/

theorem stripToken_selector {s : List Char} (hq : quoteChar ∉ s)
    (hp : '(' ∉ s) :
    pyDelete '(' (pyDelete quoteChar
      (pyStrip ('(' :: quoteChar :: (s ++ [quoteChar])))) = s := by
  have h1 : '(' :: quoteChar :: (s ++ [quoteChar]) =
      ('(' :: quoteChar :: s) ++ [quoteChar] := by simp
  have h2 : pyStrip ('(' :: quoteChar :: (s ++ [quoteChar])) =
      '(' :: quoteChar :: (s ++ [quoteChar]) := by
    unfold pyStrip
    rw [h1, rstrip_append_nonspace (by decide), ← h1,
      lstrip_cons, if_neg (by decide)]
  have d1 : pyDelete quoteChar ('(' :: quoteChar :: (s ++ [quoteChar])) =
      '(' :: s := by
    rw [pyDelete_cons_ne (by decide), pyDelete_cons_self, pyDelete_append,
      pyDelete_not_mem hq, pyDelete_cons_self, pyDelete_nil, List.append_nil]
  have d2 : pyDelete '(' ('(' :: s) = s := by
    rw [pyDelete_cons_self, pyDelete_not_mem hp]
  rw [h2, d1, d2]

theorem stripToken_value {s : List Char} (hq : quoteChar ∉ s) :
    pyDelete quoteChar
      (pyStrip (' ' :: quoteChar :: (s ++ [quoteChar]))) = s := by
  have h1 : ' ' :: quoteChar :: (s ++ [quoteChar]) =
      (' ' :: quoteChar :: s) ++ [quoteChar] := by simp
  have h2 : pyStrip (' ' :: quoteChar :: (s ++ [quoteChar])) =
      quoteChar :: (s ++ [quoteChar]) := by
    unfold pyStrip
    rw [h1, rstrip_append_nonspace (by decide), ← h1,
      lstrip_cons, if_pos (by decide), lstrip_cons, if_neg (by decide)]
  rw [h2, pyDelete_cons_self, pyDelete_append, pyDelete_not_mem hq,
    pyDelete_cons_self, pyDelete_nil, List.append_nil]

theorem stripToken_display {s : List Char} (hq : quoteChar ∉ s)
    (hp : ')' ∉ s) :
    pyDelete ')' (pyDelete quoteChar
      (pyStrip (' ' :: quoteChar :: (s ++ [quoteChar, ')'])))) = s := by
  have h1 : ' ' :: quoteChar :: (s ++ [quoteChar, ')']) =
      (' ' :: quoteChar :: (s ++ [quoteChar])) ++ [')'] := by simp
  have h2 : pyStrip (' ' :: quoteChar :: (s ++ [quoteChar, ')'])) =
      quoteChar :: (s ++ [quoteChar, ')']) := by
    unfold pyStrip
    rw [h1, rstrip_append_nonspace (by decide), ← h1,
      lstrip_cons, if_pos (by decide), lstrip_cons, if_neg (by decide)]
  have d1 : pyDelete quoteChar (quoteChar :: (s ++ [quoteChar, ')'])) =
      s ++ [')'] := by
    rw [pyDelete_cons_self, pyDelete_append, pyDelete_not_mem hq,
      pyDelete_cons_self, pyDelete_cons_ne (by decide), pyDelete_nil]
  have d2 : pyDelete ')' (s ++ [')']) = s := by
    rw [pyDelete_append, pyDelete_not_mem hp, pyDelete_cons_self,
      pyDelete_nil, List.append_nil]
  rw [h2, d1, d2]

/-! ### Round-trip of one serialized line -/

theorem parseLine_eq_of_splits (po line lhs rhs f0 f1 f2 : List Char)
    (rest frest : List (List Char))
    (h1 : pySplit '=' line = lhs :: rhs :: rest)
    (h2 : pySplit ',' (pyStrip rhs) = f0 :: f1 :: f2 :: frest) :
    parseLine po line = some {
      element_name := pyStrip lhs
      element_selector := pyDelete '(' (pyDelete quoteChar (pyStrip f0))
      element_value := pyDelete quoteChar (pyStrip f1)
      element_display_name := pyDelete ')' (pyDelete quoteChar (pyStrip f2))
      element_full_name := po ++ '.' :: pyStrip lhs } := by
  unfold parseLine
  rw [h1]
  simp only
  rw [h2]

theorem parseLine_formatLine (po : List Char) (e : ElementInput)
    (h : RoundTripSafe e) :
    parseLine po (formatLine e) = some (toParsed po e) := by
  obtain ⟨n, s, v, d⟩ := e
  obtain ⟨⟨hc1, hc2, hc3, hc4⟩, ⟨hq1, hq2, hq3, hq4⟩, ⟨he1, he2, he3, he4⟩,
    ⟨hn1, hn2, hn3, hn4⟩, hp2, hp3, hstrip⟩ := h
  simp only at hc2 hc3 hc4 hq2 hq3 hq4 he1 he2 he3 he4 hp2 hp3 hstrip
  have hline : formatLine ⟨n, s, v, d⟩ =
      (n ++ [' ']) ++ '=' ::
        (' ' :: (('(' :: quoteChar :: (s ++ [quoteChar])) ++ ',' ::
          ((' ' :: quoteChar :: (v ++ [quoteChar])) ++ ',' ::
            (' ' :: quoteChar :: (d ++ [quoteChar, ')']))))) := by
    simp [formatLine]
  have hname_eq : '=' ∉ n ++ [' '] := by
    simp [List.mem_append, he1]
  have hR_eq : '=' ∉
      (' ' :: (('(' :: quoteChar :: (s ++ [quoteChar])) ++ ',' ::
        ((' ' :: quoteChar :: (v ++ [quoteChar])) ++ ',' ::
          (' ' :: quoteChar :: (d ++ [quoteChar, ')']))))) := by
    simp [List.mem_cons, List.mem_append, he2, he3, he4, quoteChar]
  have h1 : pySplit '=' (formatLine ⟨n, s, v, d⟩) =
      (n ++ [' ']) ::
        (' ' :: (('(' :: quoteChar :: (s ++ [quoteChar])) ++ ',' ::
          ((' ' :: quoteChar :: (v ++ [quoteChar])) ++ ',' ::
            (' ' :: quoteChar :: (d ++ [quoteChar, ')']))))) :: [] := by
    rw [hline, pySplit_append_cons hname_eq, pySplit_not_mem hR_eq]
  have hstripR : pyStrip
      (' ' :: (('(' :: quoteChar :: (s ++ [quoteChar])) ++ ',' ::
        ((' ' :: quoteChar :: (v ++ [quoteChar])) ++ ',' ::
          (' ' :: quoteChar :: (d ++ [quoteChar, ')']))))) =
      ('(' :: quoteChar :: (s ++ [quoteChar])) ++ ',' ::
        ((' ' :: quoteChar :: (v ++ [quoteChar])) ++ ',' ::
          (' ' :: quoteChar :: (d ++ [quoteChar, ')']))) := by
    have hshape : (' ' :: (('(' :: quoteChar :: (s ++ [quoteChar])) ++ ',' ::
        ((' ' :: quoteChar :: (v ++ [quoteChar])) ++ ',' ::
          (' ' :: quoteChar :: (d ++ [quoteChar, ')']))))) =
        (' ' :: (('(' :: quoteChar :: (s ++ [quoteChar])) ++ ',' ::
          ((' ' :: quoteChar :: (v ++ [quoteChar])) ++ ',' ::
            (' ' :: quoteChar :: (d ++ [quoteChar]))))) ++ [')'] := by
      simp
    unfold pyStrip
    rw [hshape, rstrip_append_nonspace (by decide), ← hshape,
      lstrip_cons, if_pos (by decide)]
    rw [List.cons_append, lstrip_cons, if_neg (by decide)]
  have hAc : ',' ∉ ('(' :: quoteChar :: (s ++ [quoteChar])) := by
    simp [List.mem_cons, List.mem_append, hc2, quoteChar]
  have hBc : ',' ∉ (' ' :: quoteChar :: (v ++ [quoteChar])) := by
    simp [List.mem_cons, List.mem_append, hc3, quoteChar]
  have hCc : ',' ∉ (' ' :: quoteChar :: (d ++ [quoteChar, ')'])) := by
    simp [List.mem_cons, List.mem_append, hc4, quoteChar]
  have h2 : pySplit ','
      (pyStrip (' ' :: (('(' :: quoteChar :: (s ++ [quoteChar])) ++ ',' ::
        ((' ' :: quoteChar :: (v ++ [quoteChar])) ++ ',' ::
          (' ' :: quoteChar :: (d ++ [quoteChar, ')'])))))) =
      ('(' :: quoteChar :: (s ++ [quoteChar])) ::
        (' ' :: quoteChar :: (v ++ [quoteChar])) ::
          (' ' :: quoteChar :: (d ++ [quoteChar, ')'])) :: [] := by
    rw [hstripR, pySplit_append_cons hAc, pySplit_append_cons hBc,
      pySplit_not_mem hCc]
  rw [parseLine_eq_of_splits po _ _ _ _ _ _ _ _ h1 h2]
  rw [pyStrip_append_space, hstrip]
  rw [stripToken_selector hq2 hp2, stripToken_value hq3,
    stripToken_display hq4 hp3]
  rfl

/-! ### Round-trip of a whole serialized file -/

theorem newline_not_mem_formatLine {e : ElementInput} (h : RoundTripSafe e) :
    '\n' ∉ formatLine e := by
  obtain ⟨_, _, _, ⟨hn1, hn2, hn3, hn4⟩, _⟩ := h
  simp [formatLine, List.mem_append, List.mem_cons, hn1, hn2, hn3, hn4,
    quoteChar]

theorem eq_mem_formatLine (e : ElementInput) : '=' ∈ formatLine e := by
  simp [formatLine, List.mem_append, List.mem_cons]

theorem readLines_save_page_object {elements : List ElementInput}
    (h : ∀ e ∈ elements, '\n' ∉ formatLine e) :
    readLines (save_page_object elements) =
      elements.map formatLine ++ [[]] := by
  induction elements with
  | nil => rfl
  | cons e es ih =>
    have he : '\n' ∉ formatLine e := h e (List.mem_cons_self e es)
    have hes : ∀ x ∈ es, '\n' ∉ formatLine x :=
      fun x hx => h x (List.mem_cons_of_mem e hx)
    have hsave : save_page_object (e :: es) =
        formatLine e ++ '\n' :: save_page_object es := by
      simp [save_page_object]
    unfold readLines at ih ⊢
    rw [hsave, pySplit_append_cons he, ih hes]
    simp

theorem get_web_elements_formatLines (po : List Char)
    (elements : List ElementInput) (h : ∀ e ∈ elements, RoundTripSafe e) :
    get_web_elements (elements.map formatLine ++ [[]]) po =
      some (elements.map (toParsed po)) := by
  induction elements with
  | nil => simp [get_web_elements]
  | cons e es ih =>
    have he : RoundTripSafe e := h e (List.mem_cons_self e es)
    have hes : ∀ x ∈ es, RoundTripSafe x :=
      fun x hx => h x (List.mem_cons_of_mem e hx)
    rw [List.map_cons, List.cons_append]
    unfold get_web_elements
    rw [if_pos (eq_mem_formatLine e), parseLine_formatLine po e he]
    simp only
    rw [ih hes]
    rfl

/-- C1 (counterexample): the round-trip property fails as stated.  The
element below has no comma and no quote character in any field — the only
restriction the claim imposes — yet parsing its serialized form does not
return the corresponding record: the opening parenthesis inside the
selector is deleted by the parser, so the selector comes back changed. -/
theorem c1_round_trip_counterexample :
    (',' ∉ ("a").data ∧ ',' ∉ ("x(y").data ∧ ',' ∉ ("v").data ∧
      ',' ∉ ("d").data ∧
     quoteChar ∉ ("a").data ∧ quoteChar ∉ ("x(y").data ∧
      quoteChar ∉ ("v").data ∧ quoteChar ∉ ("d").data) ∧
    get_web_elements
      (readLines (save_page_object
        [⟨("a").data, ("x(y").data, ("v").data, ("d").data⟩]))
      ("po").data ≠
      some [toParsed ("po").data
        ⟨("a").data, ("x(y").data, ("v").data, ("d").data⟩] := by
  decide

/-- C1 (amended): serializing a list of elements with `save_page_object`
and parsing the resulting lines with `get_web_elements` yields the
corresponding records in the same order, provided that — beyond the
commas and quotes the claim already excludes — no field contains an
equals sign or a newline, the selector contains no opening parenthesis,
the display name contains no closing parenthesis, and the name carries no
surrounding whitespace. -/
theorem c1_round_trip_amended (po : List Char) (elements : List ElementInput)
    (h : ∀ e ∈ elements, RoundTripSafe e) :
    get_web_elements (readLines (save_page_object elements)) po =
      some (elements.map (toParsed po)) := by
  rw [readLines_save_page_object
    (fun e he => newline_not_mem_formatLine (h e he))]
  exact get_web_elements_formatLines po elements h

/-- C1 (witness): the amended round trip evaluated on two concrete
elements, among them the canonical example of the spec. -/
theorem c1_round_trip_amended_witness :
    get_web_elements
      (readLines (save_page_object
        [⟨("username").data, ("id").data, ("user-input").data,
          ("Username field").data⟩,
         ⟨("btn").data, ("css").data, ("a.btn").data, ("Button").data⟩]))
      ("login").data =
      some [toParsed ("login").data
        ⟨("username").data, ("id").data, ("user-input").data,
          ("Username field").data⟩,
        toParsed ("login").data
        ⟨("btn").data, ("css").data, ("a.btn").data, ("Button").data⟩] :=
  c1_round_trip_amended ("login").data
    [⟨("username").data, ("id").data, ("user-input").data,
      ("Username field").data⟩,
     ⟨("btn").data, ("css").data, ("a.btn").data, ("Button").data⟩]
    (by decide)

/-! ### The parse rule, line by line -/

theorem pySplit_eq_cons (c : Char) (l : List Char) :
    pySplit c l = l.takeWhile (fun d => d ≠ c) :: (pySplit c l).tail := by
  cases h : pySplit c l with
  | nil => exact absurd h (pySplit_ne_nil c l)
  | cons a t =>
    have hh := pySplit_headD (c := c) l
    rw [h] at hh
    simp only [List.headD_cons] at hh
    rw [hh]
    rfl

/-- `get_web_elements` handles each line exactly as `codeParseLine`
describes: skip, collect a record, or abort. -/
theorem get_web_elements_cons (po line : List Char)
    (rest : List (List Char)) :
    get_web_elements (line :: rest) po =
      match codeParseLine po line with
      | LineResult.ignored => get_web_elements rest po
      | LineResult.record el =>
          (get_web_elements rest po).map (fun es => el :: es)
      | LineResult.error => none := by
  by_cases hm : '=' ∈ line
  · cases hp : parseLine po line with
    | some el => simp [get_web_elements, codeParseLine, hm, hp]
    | none => simp [get_web_elements, codeParseLine, hm, hp]
  · simp [get_web_elements, codeParseLine, hm]

/-- C2 (counterexample): the per-line parse rule of `get_web_elements`
does not agree with the rule as the spec words it.  On the line
`n = (<q>a(b<q>, <q>v<q>, <q>d<q>)` (with `<q>` the quote character), the
code deletes the inner opening parenthesis of the selector, while
stripping only the surrounding quotes and parentheses — what the spec
says — would keep it. -/
theorem c2_parse_rule_counterexample :
    codeParseLine ("po").data ("n = (\x27a(b\x27, \x27v\x27, \x27d\x27)").data ≠
      specParseLine ("po").data ("n = (\x27a(b\x27, \x27v\x27, \x27d\x27)").data := by
  decide

/-- C2 (amended): for every input line, `get_web_elements` treats the
line as an element declaration iff it contains an equals sign; the
element name is the trimmed text before the first equals sign; the
right-hand side is the segment between the first and the second equals
sign; its first three comma-separated tokens (further tokens are
ignored, fewer than three abort the parse) are each trimmed and then
have every quote character deleted, the first token also every opening
parenthesis and the third also every closing parenthesis; the record
carries the fully-qualified name formed from the page-object name, a
dot, and the element name. -/
theorem c2_parse_rule_amended (po line : List Char) :
    codeParseLine po line = specParseLineAmended po line := by
  by_cases hm : '=' ∈ line
  · unfold codeParseLine specParseLineAmended
    rw [if_pos hm, if_pos hm]
    have h1 : pySplit '=' line =
        line.takeWhile (fun x => x ≠ '=') ::
          ((line.dropWhile (fun x => x ≠ '=')).tail.takeWhile
            (fun x => x ≠ '=')) ::
            (pySplit '=' ((line.dropWhile (fun x => x ≠ '=')).tail)).tail := by
      rw [pySplit_of_mem hm]
      congr 1
      exact pySplit_eq_cons '=' _
    unfold parseLine
    rw [h1]
    simp only
    cases h2 : pySplit ','
        (pyStrip ((line.dropWhile (fun x => x ≠ '=')).tail.takeWhile
          (fun x => x ≠ '='))) with
    | nil => rfl
    | cons f0 t0 =>
      cases t0 with
      | nil => rfl
      | cons f1 t1 =>
        cases t1 with
        | nil => rfl
        | cons f2 t2 => rfl
  · unfold codeParseLine specParseLineAmended
    rw [if_neg hm, if_neg hm]

/-- C2 (witness): the amended parse rule evaluated on the canonical
example line of the spec. -/
theorem c2_parse_rule_amended_witness :
    codeParseLine ("login").data
        ("username = (\x27id\x27, \x27user-input\x27, \x27Username field\x27)").data =
      specParseLineAmended ("login").data
        ("username = (\x27id\x27, \x27user-input\x27, \x27Username field\x27)").data :=
  c2_parse_rule_amended ("login").data
    ("username = (\x27id\x27, \x27user-input\x27, \x27Username field\x27)").data

/-! ### Record count over interleaved files -/

/-- C3: a file made of N well-formed element lines interleaved in any
order with M lines containing no equals sign parses to exactly N records,
whatever M is and wherever the non-matching lines sit. -/
theorem c3_record_count (po : List Char)
    (content well_formed other : List (List Char))
    (hI : Interleave content well_formed other)
    (hwf : ∀ l ∈ well_formed, '=' ∈ l ∧ (parseLine po l).isSome)
    (hother : ∀ l ∈ other, '=' ∉ l) :
    ∃ records, get_web_elements content po = some records ∧
      records.length = well_formed.length := by
  induction hI with
  | nil => exact ⟨[], rfl, rfl⟩
  | @left l xs ys x hI ih =>
    obtain ⟨hx_eq, hx_some⟩ := hwf x (List.mem_cons_self x xs)
    obtain ⟨el, hel⟩ := Option.isSome_iff_exists.mp hx_some
    obtain ⟨records, hrec, hlen⟩ :=
      ih (fun m hm => hwf m (List.mem_cons_of_mem x hm)) hother
    refine ⟨el :: records, ?_, by simp [hlen]⟩
    unfold get_web_elements
    rw [if_pos hx_eq, hel, hrec]
    rfl
  | @right l xs ys y hI ih =>
    obtain ⟨records, hrec, hlen⟩ :=
      ih hwf (fun m hm => hother m (List.mem_cons_of_mem y hm))
    refine ⟨records, ?_, hlen⟩
    unfold get_web_elements
    rw [if_neg (hother y (List.mem_cons_self y ys))]
    exact hrec

/-- C3 (witness): two well-formed lines interleaved with a comment line
and a blank line parse to exactly two records. -/
theorem c3_record_count_witness :
    ∃ records,
      get_web_elements
        [("# comment").data,
         ("a = (\x27id\x27, \x27a1\x27, \x27A\x27)").data,
         ("").data,
         ("b = (\x27css\x27, \x27b2\x27, \x27B\x27)").data]
        ("po").data = some records ∧
      records.length =
        ([("a = (\x27id\x27, \x27a1\x27, \x27A\x27)").data,
          ("b = (\x27css\x27, \x27b2\x27, \x27B\x27)").data] :
            List (List Char)).length :=
  c3_record_count ("po").data
    [("# comment").data,
     ("a = (\x27id\x27, \x27a1\x27, \x27A\x27)").data,
     ("").data,
     ("b = (\x27css\x27, \x27b2\x27, \x27B\x27)").data]
    [("a = (\x27id\x27, \x27a1\x27, \x27A\x27)").data,
     ("b = (\x27css\x27, \x27b2\x27, \x27B\x27)").data]
    [("# comment").data, ("").data]
    (Interleave.right _ (Interleave.left _ (Interleave.right _
      (Interleave.left _ Interleave.nil))))
    (by decide) (by decide)

/-! ### Fully-qualified-name detection -/

theorem dropLast_getLast_getD {α : Type} (l : List α) (d : α)
    (h : 2 ≤ l.length) :
    l.dropLast.getLast?.getD d = l.getD (l.length - 2) d := by
  rw [List.getLast?_eq_getElem?, List.getD_eq_getElem?_getD,
    List.length_dropLast, List.getElem?_dropLast]
  have h2 : l.length - 1 - 1 = l.length - 2 := by omega
  rw [h2, if_pos (by omega)]

theorem any_eq_contains (pos : List (List Char)) (x : List Char) :
    pos.any (fun po => po = x) = pos.contains x := by
  induction pos with
  | nil => rfl
  | cons p ps ih =>
    simp only [List.any_cons, List.contains_cons, ih]
    congr 1
    by_cases h : p = x
    · subst h; simp
    · rw [decide_eq_false h]
      symm
      rw [beq_eq_false_iff_ne]
      exact fun hxp => h hxp.symm

/-- C4: `is_page_object` classifies a parameter as a page-object
reference exactly when its dot-split has at least two segments and the
penultimate segment is the name of a known page object. -/
theorem c4_is_page_object_penultimate (parameter : List Char)
    (page_object_names : List (List Char)) :
    is_page_object parameter page_object_names =
      (decide (2 ≤ (pySplit '.' parameter).length) &&
        page_object_names.contains
          ((pySplit '.' parameter).getD
            ((pySplit '.' parameter).length - 2) [])) := by
  unfold is_page_object
  by_cases h : (pySplit '.' parameter).length ≤ 1
  · rw [if_pos h, decide_eq_false (by omega)]
    simp
  · rw [if_neg h, decide_eq_true (by omega)]
    show (page_object_names.any fun po =>
        decide (po = (pySplit '.' parameter).dropLast.getLast?.getD [])) = _
    rw [dropLast_getLast_getD _ _ (by omega), any_eq_contains]
    simp

/-! ### Fatal malformed lines -/

theorem parseLine_eq_none_of_short (po line : List Char)
    (heq : '=' ∈ line)
    (hshort : (pySplit ','
      (pyStrip ((pySplit '=' line).getD 1 []))).length < 3) :
    parseLine po line = none := by
  have h1 : pySplit '=' line =
      line.takeWhile (fun x => x ≠ '=') ::
        ((line.dropWhile (fun x => x ≠ '=')).tail.takeWhile
          (fun x => x ≠ '=')) ::
          (pySplit '=' ((line.dropWhile (fun x => x ≠ '=')).tail)).tail := by
    rw [pySplit_of_mem heq]
    congr 1
    exact pySplit_eq_cons '=' _
  rw [h1] at hshort
  simp only [List.getD_cons_succ, List.getD_cons_zero] at hshort
  unfold parseLine
  rw [h1]
  simp only
  cases h2 : pySplit ','
      (pyStrip ((line.dropWhile (fun x => x ≠ '=')).tail.takeWhile
        (fun x => x ≠ '='))) with
  | nil => rfl
  | cons f0 t0 =>
    cases t0 with
    | nil => rfl
    | cons f1 t1 =>
      cases t1 with
      | nil => rfl
      | cons f2 t2 =>
        rw [h2] at hshort
        simp at hshort
        omega

/-- C5: a line that contains an equals sign but whose right-hand side
has fewer than three comma-separated fields makes the whole parse fail
(the modelled IndexError): `get_web_elements` returns no partial result
for any file containing such a line. -/
theorem c5_malformed_line_fatal (po : List Char)
    (content : List (List Char)) (line : List Char)
    (hmem : line ∈ content) (heq : '=' ∈ line)
    (hshort : (pySplit ','
      (pyStrip ((pySplit '=' line).getD 1 []))).length < 3) :
    get_web_elements content po = none := by
  have hnone : parseLine po line = none :=
    parseLine_eq_none_of_short po line heq hshort
  induction content with
  | nil => cases hmem
  | cons hd tl ih =>
    rcases List.mem_cons.mp hmem with rfl | hmem2
    · unfold get_web_elements
      rw [if_pos heq, hnone]
    · unfold get_web_elements
      by_cases hh : '=' ∈ hd
      · rw [if_pos hh]
        cases hp : parseLine po hd with
        | none => rfl
        | some el =>
          rw [ih hmem2]
          rfl
      · rw [if_neg hh]
        exact ih hmem2

/-- C5 (witness): a file whose second line has an equals sign but only
one comma on the right-hand side parses to nothing at all — the record
of the preceding well-formed line is not returned. -/
theorem c5_malformed_line_fatal_witness :
    get_web_elements
      [("a = (\x27id\x27, \x27a1\x27, \x27A\x27)").data,
       ("b = (\x27css\x27, \x27b2\x27)").data]
      ("po").data = none :=
  c5_malformed_line_fatal ("po").data
    [("a = (\x27id\x27, \x27a1\x27, \x27A\x27)").data,
     ("b = (\x27css\x27, \x27b2\x27)").data]
    ("b = (\x27css\x27, \x27b2\x27)").data
    (by decide) (by decide) (by decide)

/-! ### Checkbox and radio-button helpers -/

/-- C6: `check` on an input of type checkbox or radio that is already
selected performs no click, and `uncheck` on a checkbox that is already
unselected performs no click; the selection state is consulted before any
mutation, so in both cases the action list is empty. -/
theorem c6_check_uncheck_idempotent (e : WebElementState)
    (htag : e.tag_name = "input") :
    ((get_attribute e "type" = some "checkbox" ∨
        get_attribute e "type" = some "radio") →
      e.selected = true → check e = Except.ok []) ∧
    (get_attribute e "type" = some "checkbox" →
      e.selected = false → uncheck e = Except.ok []) := by
  constructor
  · intro htype hsel
    unfold check
    have hcr : pyMemOpt (get_attribute e "type") ["checkbox", "radio"] = true := by
      rcases htype with h | h <;> simp [pyMemOpt, h]
    rw [htag, hcr]
    simp [hsel]
  · intro htype hsel
    unfold uncheck
    rw [htag, htype]
    simp [hsel]

/-- C6 (witness): an already-selected checkbox is not clicked by `check`,
and an already-unselected checkbox is not clicked by `uncheck`. -/
theorem c6_check_uncheck_idempotent_witness :
    check ⟨"box", "input", [("type", "checkbox")], true⟩ = Except.ok [] ∧
    uncheck ⟨"box", "input", [("type", "checkbox")], false⟩ = Except.ok [] :=
  ⟨(c6_check_uncheck_idempotent
      ⟨"box", "input", [("type", "checkbox")], true⟩ rfl).1
      (Or.inl (by decide)) rfl,
   (c6_check_uncheck_idempotent
      ⟨"box", "input", [("type", "checkbox")], false⟩ rfl).2
      (by decide) rfl⟩

/-- C9: `check` accepts a radio button (an input of type radio), but
`uncheck` on that same element always raises a ValueError naming the
element and never clicks. -/
theorem c9_uncheck_rejects_radio (e : WebElementState)
    (htag : e.tag_name = "input")
    (htype : get_attribute e "type" = some "radio") :
    check e = Except.ok (if e.selected then [] else [ElementAction.click]) ∧
    uncheck e = Except.error ("Element " ++ e.name ++ " is not checkbox") := by
  constructor
  · unfold check
    have hcr : pyMemOpt (get_attribute e "type") ["checkbox", "radio"] = true := by
      simp [pyMemOpt, htype]
    rw [htag, hcr]
    cases hs : e.selected <;> simp
  · unfold uncheck
    rw [htag, htype]
    simp

/-- C9 (witness): an unselected radio button is clicked by `check` but
rejected by `uncheck`. -/
theorem c9_uncheck_rejects_radio_witness :
    check ⟨"sex", "input", [("type", "radio")], false⟩ =
      Except.ok [ElementAction.click] ∧
    uncheck ⟨"sex", "input", [("type", "radio")], false⟩ =
      Except.error "Element sex is not checkbox" := by
  have h := c9_uncheck_rejects_radio
    ⟨"sex", "input", [("type", "radio")], false⟩ rfl (by decide)
  exact ⟨h.1, h.2⟩

/-! ### Invalid keys and delays -/

/-- C7: `press_key` raises a ValueError whose message names the invalid
key and lists the valid ones for every key that is not a defined key
constant, and sends the key otherwise; `send_keys_with_delay` raises a
ValueError for every delay that is not a non-negative int or float, and
types the value otherwise — no silent coercion in either case. -/
theorem c7_invalid_key_and_delay (keys_attrs : List (String × String))
    (key value : String) (delay : PyNum) :
    ((∀ p ∈ keys_attrs, p.1 ≠ key) →
      press_key keys_attrs key =
        Except.error (invalidKeyMessage keys_attrs key)) ∧
    (∀ p, keys_attrs.find? (fun q => q.1 == key) = some p →
      press_key keys_attrs key = Except.ok [ElementAction.sendKeys p.2]) ∧
    (delay.isNumeric = false →
      send_keys_with_delay value delay =
        Except.error "delay must be int or float") ∧
    (delay.isNumeric = true → delay.isNegative = true →
      send_keys_with_delay value delay =
        Except.error "delay must be a positive number") ∧
    (delay.isNumeric = true → delay.isNegative = false →
      send_keys_with_delay value delay =
        Except.ok (typeWithDelayActions value delay)) := by
  refine ⟨?_, ?_, ?_, ?_, ?_⟩
  · intro hnone
    unfold press_key
    have : keys_attrs.find? (fun q => q.1 == key) = none := by
      rw [List.find?_eq_none]
      intro p hp
      simp [hnone p hp]
    rw [this]
  · intro p hp
    unfold press_key
    rw [hp]
  · intro hnum
    unfold send_keys_with_delay
    rw [hnum]
    rfl
  · intro hnum hneg
    unfold send_keys_with_delay
    rw [hnum, hneg]
    rfl
  · intro hnum hneg
    unfold send_keys_with_delay
    rw [hnum, hneg]
    rfl

/-- C7 (witness): an unknown key raises the descriptive ValueError while
a known key is sent; a string delay and a negative delay raise, a zero
delay types the value. -/
theorem c7_invalid_key_and_delay_witness :
    press_key [("ENTER", "KE"), ("_HID", "KH")] "BOGUS" =
      Except.error (invalidKeyMessage [("ENTER", "KE"), ("_HID", "KH")] "BOGUS") ∧
    press_key [("ENTER", "KE"), ("_HID", "KH")] "ENTER" =
      Except.ok [ElementAction.sendKeys "KE"] ∧
    send_keys_with_delay "ab" PyNum.notNum =
      Except.error "delay must be int or float" ∧
    send_keys_with_delay "ab" (PyNum.int (-1)) =
      Except.error "delay must be a positive number" ∧
    send_keys_with_delay "ab" (PyNum.int 0) =
      Except.ok (typeWithDelayActions "ab" (PyNum.int 0)) := by
  refine ⟨?_, ?_, ?_, ?_, ?_⟩
  · exact (c7_invalid_key_and_delay [("ENTER", "KE"), ("_HID", "KH")]
      "BOGUS" "ab" PyNum.notNum).1 (by decide)
  · exact (c7_invalid_key_and_delay [("ENTER", "KE"), ("_HID", "KH")]
      "ENTER" "ab" PyNum.notNum).2.1 ("ENTER", "KE") (by decide)
  · exact (c7_invalid_key_and_delay [] "x" "ab" PyNum.notNum).2.2.1 rfl
  · exact (c7_invalid_key_and_delay [] "x" "ab"
      (PyNum.int (-1))).2.2.2.1 rfl (by decide)
  · exact (c7_invalid_key_and_delay [] "x" "ab"
      (PyNum.int 0)).2.2.2.2 rfl (by decide)

/-! ### Wait helpers -/

theorem waitUntil_map_ok (t : Nat) (cond : Nat → Bool) (msg : String)
    (h : ∃ k, k ≤ t ∧ cond k = true) (e : WebElementState) :
    (webDriverWaitUntil t cond msg).map (fun _ => e) = Except.ok e := by
  unfold webDriverWaitUntil
  rw [if_pos]
  · rfl
  · obtain ⟨k, hk, hc⟩ := h
    rw [List.any_eq_true]
    exact ⟨k, List.mem_range.mpr (by omega), hc⟩

theorem waitUntil_map_error (t : Nat) (cond : Nat → Bool) (msg : String)
    (h : ∀ k, k ≤ t → cond k = false) (e : WebElementState) :
    (webDriverWaitUntil t cond msg).map (fun _ => e) = Except.error msg := by
  unfold webDriverWaitUntil
  rw [if_neg]
  · rfl
  · rw [List.any_eq_true]
    rintro ⟨k, hk, hc⟩
    rw [h k (by have := List.mem_range.mp hk; omega)] at hc
    cases hc

theorem waitUntilNot_map_ok (t : Nat) (cond : Nat → Bool) (msg : String)
    (h : ∃ k, k ≤ t ∧ cond k = false) (e : WebElementState) :
    (webDriverWaitUntilNot t cond msg).map (fun _ => e) = Except.ok e := by
  unfold webDriverWaitUntilNot
  rw [if_pos]
  · rfl
  · obtain ⟨k, hk, hc⟩ := h
    rw [List.any_eq_true]
    exact ⟨k, List.mem_range.mpr (by omega), by rw [hc]; rfl⟩

theorem waitUntilNot_map_error (t : Nat) (cond : Nat → Bool) (msg : String)
    (h : ∀ k, k ≤ t → cond k = true) (e : WebElementState) :
    (webDriverWaitUntilNot t cond msg).map (fun _ => e) = Except.error msg := by
  unfold webDriverWaitUntilNot
  rw [if_neg]
  · rfl
  · rw [List.any_eq_true]
    rintro ⟨k, hk, hc⟩
    rw [h k (by have := List.mem_range.mp hk; omega)] at hc
    cases hc

/-- C8: every wait helper defaults its timeout parameter to 30; when its
condition comes to hold at some poll within the timeout it returns the
element itself, and when the condition fails throughout it raises a
timeout error whose message names the element and the expected
condition. -/
theorem c8_wait_helpers (e : WebElementState) (attr_name text : String)
    (cond : Nat → Bool) (timeout : Nat) :
    (wait_displayed e cond = wait_displayed e cond 30) ∧
    ((∃ k, k ≤ timeout ∧ cond k = true) →
      wait_displayed e cond timeout = Except.ok e) ∧
    ((∀ k, k ≤ timeout → cond k = false) →
      wait_displayed e cond timeout = Except.error
        ("Timeout waiting for element " ++ e.name ++ " to be displayed")) ∧
    (wait_enabled e cond = wait_enabled e cond 30) ∧
    ((∃ k, k ≤ timeout ∧ cond k = true) →
      wait_enabled e cond timeout = Except.ok e) ∧
    ((∀ k, k ≤ timeout → cond k = false) →
      wait_enabled e cond timeout = Except.error
        ("Timeout waiting for element " ++ e.name ++ " to be enabled")) ∧
    (wait_has_attribute e attr_name cond =
      wait_has_attribute e attr_name cond 30) ∧
    ((∃ k, k ≤ timeout ∧ cond k = true) →
      wait_has_attribute e attr_name cond timeout = Except.ok e) ∧
    ((∀ k, k ≤ timeout → cond k = false) →
      wait_has_attribute e attr_name cond timeout = Except.error
        ("Timeout waiting for element " ++ e.name ++ " to have attribute " ++
          attr_name)) ∧
    (wait_has_not_attribute e attr_name cond =
      wait_has_not_attribute e attr_name cond 30) ∧
    ((∃ k, k ≤ timeout ∧ cond k = false) →
      wait_has_not_attribute e attr_name cond timeout = Except.ok e) ∧
    ((∀ k, k ≤ timeout → cond k = true) →
      wait_has_not_attribute e attr_name cond timeout = Except.error
        ("Timeout waiting for element " ++ e.name ++
          " to not have attribute " ++ attr_name)) ∧
    (wait_not_displayed e cond = wait_not_displayed e cond 30) ∧
    ((∃ k, k ≤ timeout ∧ cond k = false) →
      wait_not_displayed e cond timeout = Except.ok e) ∧
    ((∀ k, k ≤ timeout → cond k = true) →
      wait_not_displayed e cond timeout = Except.error
        ("Timeout waiting for element " ++ e.name ++
          " to be not displayed")) ∧
    (wait_not_enabled e cond = wait_not_enabled e cond 30) ∧
    ((∃ k, k ≤ timeout ∧ cond k = false) →
      wait_not_enabled e cond timeout = Except.ok e) ∧
    ((∀ k, k ≤ timeout → cond k = true) →
      wait_not_enabled e cond timeout = Except.error
        ("Timeout waiting for element " ++ e.name ++ " to be not enabled")) ∧
    (wait_text e text cond = wait_text e text cond 30) ∧
    ((∃ k, k ≤ timeout ∧ cond k = true) →
      wait_text e text cond timeout = Except.ok e) ∧
    ((∀ k, k ≤ timeout → cond k = false) →
      wait_text e text cond timeout = Except.error
        ("Timeout waiting for element " ++ e.name ++ " text to be \x27" ++
          text ++ "\x27")) ∧
    (wait_text_contains e text cond = wait_text_contains e text cond 30) ∧
    ((∃ k, k ≤ timeout ∧ cond k = true) →
      wait_text_contains e text cond timeout = Except.ok e) ∧
    ((∀ k, k ≤ timeout → cond k = false) →
      wait_text_contains e text cond timeout = Except.error
        ("Timeout waiting for element " ++ e.name ++
          " text to contain \x27" ++ text ++ "\x27")) ∧
    (wait_text_is_not e text cond = wait_text_is_not e text cond 30) ∧
    ((∃ k, k ≤ timeout ∧ cond k = false) →
      wait_text_is_not e text cond timeout = Except.ok e) ∧
    ((∀ k, k ≤ timeout → cond k = true) →
      wait_text_is_not e text cond timeout = Except.error
        ("Timeout waiting for element " ++ e.name ++
          " text not to be \x27" ++ text ++ "\x27")) ∧
    (wait_text_not_contains e text cond =
      wait_text_not_contains e text cond 30) ∧
    ((∃ k, k ≤ timeout ∧ cond k = false) →
      wait_text_not_contains e text cond timeout = Except.ok e) ∧
    ((∀ k, k ≤ timeout → cond k = true) →
      wait_text_not_contains e text cond timeout = Except.error
        ("Timeout waiting for element " ++ e.name ++
          " text to not contain \x27" ++ text ++ "\x27")) :=
  ⟨rfl, fun h => waitUntil_map_ok _ _ _ h e,
    fun h => waitUntil_map_error _ _ _ h e,
   rfl, fun h => waitUntil_map_ok _ _ _ h e,
    fun h => waitUntil_map_error _ _ _ h e,
   rfl, fun h => waitUntil_map_ok _ _ _ h e,
    fun h => waitUntil_map_error _ _ _ h e,
   rfl, fun h => waitUntilNot_map_ok _ _ _ h e,
    fun h => waitUntilNot_map_error _ _ _ h e,
   rfl, fun h => waitUntilNot_map_ok _ _ _ h e,
    fun h => waitUntilNot_map_error _ _ _ h e,
   rfl, fun h => waitUntilNot_map_ok _ _ _ h e,
    fun h => waitUntilNot_map_error _ _ _ h e,
   rfl, fun h => waitUntil_map_ok _ _ _ h e,
    fun h => waitUntil_map_error _ _ _ h e,
   rfl, fun h => waitUntil_map_ok _ _ _ h e,
    fun h => waitUntil_map_error _ _ _ h e,
   rfl, fun h => waitUntilNot_map_ok _ _ _ h e,
    fun h => waitUntilNot_map_error _ _ _ h e,
   rfl, fun h => waitUntilNot_map_ok _ _ _ h e,
    fun h => waitUntilNot_map_error _ _ _ h e⟩

/-- C8 (witness): each wait helper evaluated at timeout 2 on a condition
that always holds and on one that never holds: the ten success cases
return the element, the ten timeout cases return the expected message. -/
theorem c8_wait_helpers_witness :
    (wait_displayed ⟨"el", "div", [], false⟩ (fun _ => true) 2 =
      Except.ok ⟨"el", "div", [], false⟩ ∧
     wait_displayed ⟨"el", "div", [], false⟩ (fun _ => false) 2 =
      Except.error "Timeout waiting for element el to be displayed") ∧
    (wait_enabled ⟨"el", "div", [], false⟩ (fun _ => true) 2 =
      Except.ok ⟨"el", "div", [], false⟩ ∧
     wait_enabled ⟨"el", "div", [], false⟩ (fun _ => false) 2 =
      Except.error "Timeout waiting for element el to be enabled") ∧
    (wait_has_attribute ⟨"el", "div", [], false⟩ "data-x" (fun _ => true) 2 =
      Except.ok ⟨"el", "div", [], false⟩ ∧
     wait_has_attribute ⟨"el", "div", [], false⟩ "data-x" (fun _ => false) 2 =
      Except.error "Timeout waiting for element el to have attribute data-x") ∧
    (wait_has_not_attribute ⟨"el", "div", [], false⟩ "data-x"
        (fun _ => false) 2 = Except.ok ⟨"el", "div", [], false⟩ ∧
     wait_has_not_attribute ⟨"el", "div", [], false⟩ "data-x"
        (fun _ => true) 2 =
      Except.error
        "Timeout waiting for element el to not have attribute data-x") ∧
    (wait_not_displayed ⟨"el", "div", [], false⟩ (fun _ => false) 2 =
      Except.ok ⟨"el", "div", [], false⟩ ∧
     wait_not_displayed ⟨"el", "div", [], false⟩ (fun _ => true) 2 =
      Except.error "Timeout waiting for element el to be not displayed") ∧
    (wait_not_enabled ⟨"el", "div", [], false⟩ (fun _ => false) 2 =
      Except.ok ⟨"el", "div", [], false⟩ ∧
     wait_not_enabled ⟨"el", "div", [], false⟩ (fun _ => true) 2 =
      Except.error "Timeout waiting for element el to be not enabled") ∧
    (wait_text ⟨"el", "div", [], false⟩ "hello" (fun _ => true) 2 =
      Except.ok ⟨"el", "div", [], false⟩ ∧
     wait_text ⟨"el", "div", [], false⟩ "hello" (fun _ => false) 2 =
      Except.error
        "Timeout waiting for element el text to be \x27hello\x27") ∧
    (wait_text_contains ⟨"el", "div", [], false⟩ "hello" (fun _ => true) 2 =
      Except.ok ⟨"el", "div", [], false⟩ ∧
     wait_text_contains ⟨"el", "div", [], false⟩ "hello" (fun _ => false) 2 =
      Except.error
        "Timeout waiting for element el text to contain \x27hello\x27") ∧
    (wait_text_is_not ⟨"el", "div", [], false⟩ "hello" (fun _ => false) 2 =
      Except.ok ⟨"el", "div", [], false⟩ ∧
     wait_text_is_not ⟨"el", "div", [], false⟩ "hello" (fun _ => true) 2 =
      Except.error
        "Timeout waiting for element el text not to be \x27hello\x27") ∧
    (wait_text_not_contains ⟨"el", "div", [], false⟩ "hello"
        (fun _ => false) 2 = Except.ok ⟨"el", "div", [], false⟩ ∧
     wait_text_not_contains ⟨"el", "div", [], false⟩ "hello"
        (fun _ => true) 2 =
      Except.error
        "Timeout waiting for element el text to not contain \x27hello\x27") := by
  have hT := c8_wait_helpers ⟨"el", "div", [], false⟩ "data-x" "hello"
    (fun _ => true) 2
  have hF := c8_wait_helpers ⟨"el", "div", [], false⟩ "data-x" "hello"
    (fun _ => false) 2
  obtain ⟨-, oDT, -, -, oET, -, -, oHAT, -, -, -, eHNAT, -, -, eNDT, -, -,
    eNET, -, oTT, -, -, oTCT, -, -, -, eTINT, -, -, eTNCT⟩ := hT
  obtain ⟨-, -, eDF, -, -, eEF, -, -, eHAF, -, oHNAF, -, -, oNDF, -, -,
    oNEF, -, -, -, eTF, -, -, eTCF, -, oTINF, -, -, oTNCF, -⟩ := hF
  refine ⟨⟨oDT ⟨0, by omega, rfl⟩, eDF (fun k hk => rfl)⟩,
    ⟨oET ⟨0, by omega, rfl⟩, eEF (fun k hk => rfl)⟩,
    ⟨oHAT ⟨0, by omega, rfl⟩, eHAF (fun k hk => rfl)⟩,
    ⟨oHNAF ⟨0, by omega, rfl⟩, eHNAT (fun k hk => rfl)⟩,
    ⟨oNDF ⟨0, by omega, rfl⟩, eNDT (fun k hk => rfl)⟩,
    ⟨oNEF ⟨0, by omega, rfl⟩, eNET (fun k hk => rfl)⟩,
    ⟨oTT ⟨0, by omega, rfl⟩, eTF (fun k hk => rfl)⟩,
    ⟨oTCT ⟨0, by omega, rfl⟩, eTCF (fun k hk => rfl)⟩,
    ⟨oTINF ⟨0, by omega, rfl⟩, eTINT (fun k hk => rfl)⟩,
    ⟨oTNCF ⟨0, by omega, rfl⟩, eTNCT (fun k hk => rfl)⟩⟩

/-! ### Page-object creation -/

theorem read_file_write_file (fs : FileSystem) (p : List String)
    (content : String) :
    read_file (write_file fs p content) p = some content := by
  unfold read_file write_file
  simp

theorem path_exists_write_file_ne (fs : FileSystem) (p q : List String)
    (content : String) (h : path_exists fs p = true) :
    path_exists (write_file fs q content) p = true := by
  unfold path_exists write_file at *
  simp only [Bool.or_eq_true] at h ⊢
  rcases h with h | h
  · exact Or.inl h
  · right
    rw [List.any_eq_true] at h ⊢
    obtain ⟨r, hr, hrp⟩ := h
    by_cases hpq : r.1 == q
    · have hp : r.1 = p := by simpa using hrp
      have hq : r.1 = q := by simpa using hpq
      exact ⟨(q, content), by simp, by simp [← hq, hp]⟩
    · exact ⟨r, by simp [List.mem_filter, hr, hpq], hrp⟩

theorem path_exists_os_makedirs_self (fs : FileSystem) (p : List String)
    (hne : p ≠ []) : path_exists (os_makedirs fs p) p = true := by
  unfold path_exists os_makedirs
  simp only [Bool.or_eq_true]
  left
  have hmem : p ∈ (List.range p.length).map (fun k => p.take (k + 1)) ++
      fs.dirs := by
    refine List.mem_append_left _ (List.mem_map.mpr ⟨p.length - 1, ?_, ?_⟩)
    · exact List.mem_range.mpr (by
        have : 0 < p.length := List.length_pos.mpr hne
        omega)
    · have : p.length - 1 + 1 = p.length := by
        have : 0 < p.length := List.length_pos.mpr hne
        omega
      rw [this, List.take_length]
  exact List.contains_iff_exists_mem_beq.mpr ⟨p, hmem, by simp⟩

/-- C10: `new_page_object` creates the pages directory (with any missing
ancestors) and truncates the target file: afterwards the directory path
exists and the page-object file exists with empty content, whatever the
prior state of the file system — in particular an existing page object
with the same name loses its stored elements. -/
theorem c10_new_page_object_truncates (fs : FileSystem)
    (root_path project : String) (parents : List String)
    (page_object_name : String) :
    path_exists (new_page_object fs root_path project parents page_object_name)
      (pageObjectDir root_path project parents) = true ∧
    read_file (new_page_object fs root_path project parents page_object_name)
      (pageObjectDir root_path project parents ++
        [page_object_name ++ ".py"]) = some "" := by
  constructor
  · simp only [new_page_object]
    by_cases h : path_exists fs (pageObjectDir root_path project parents)
    · rw [if_pos h]
      exact path_exists_write_file_ne _ _ _ _ h
    · rw [if_neg h]
      exact path_exists_write_file_ne _ _ _ _
        (path_exists_os_makedirs_self fs _ (by simp [pageObjectDir]))
  · simp only [new_page_object]
    exact read_file_write_file _ _ _

end Golem
